import Mathlib

/-!
Shallow embedding of the barcode classification and deduplication engine of
`src/app.js` (an IMEI/UPC barcode scanner), together with theorems settling
the specified properties of `analyzeBarcodeType`, the three checksum
validators, `getIMEIVendor`, `isDuplicate`, `addScanResults`/`deleteResult`,
`processDetectedBarcodes` and `loadScanData`.

JavaScript strings are modelled as Lean `String`; `text.trim()` as
`jsTrim`; the regular-expression shape tests `/^\d{n}$/` and
`/^[0-9A-F]{14}$/i` as length-plus-character-class predicates; JS
`s.substring(a, b)` as `substr`; `parseInt` on a single digit character as
`digitAt`.  The UI, audio, storage and camera side effects surrounding the
core are dropped; stateful methods become explicit state passing over the
`scanData` list.
-/

namespace IMEIScanner

/-- JS `text.trim()`: remove leading and trailing whitespace.  Written
structurally over the character list so that the kernel can evaluate it on
concrete strings. -/
def jsTrim (s : String) : String :=
  ⟨((s.data.dropWhile Char.isWhitespace).reverse.dropWhile
      Char.isWhitespace).reverse⟩

/-- JS `s.substring(a, b)` (for `a ≤ b`): the characters at indices
`a, …, b-1`. -/
def substr (s : String) (a b : Nat) : String :=
  ⟨(s.data.drop a).take (b - a)⟩

/-- Value of the digit character at index `i` of `s`
(JS `parseInt(s[i])` for an in-range decimal digit). -/
def digitAt (s : String) (i : Nat) : Nat :=
  (s.data.getD i '0').toNat - 48

/-- The shape test `/^\d{n}$/.test(s)`: exactly `n` decimal digits. -/
def isDigits (n : Nat) (s : String) : Bool :=
  s.length == n && s.data.all Char.isDigit

/-- One character class of `/^[0-9A-F]$/i`: a case-insensitive hex digit. -/
def isHexChar (c : Char) : Bool :=
  c.isDigit || ('A' ≤ c && c ≤ 'F') || ('a' ≤ c && c ≤ 'f')

/-- The shape test `/^[0-9A-F]{14}$/i.test(s)`. -/
def isHex14 (s : String) : Bool :=
  s.length == 14 && s.data.all isHexChar

/-- `getIMEIVendor` from `src/app.js`: take the TAC (`substring(0, 8)`),
look its first two characters up in the vendor map, defaulting to
`"Unknown"` (JS `vendors[tac.substring(0,2)] || 'Unknown'`). -/
def getIMEIVendor (imei : String) : String :=
  let tac := substr imei 0 8
  let p := substr tac 0 2
  if p = "01" then "Apple"
  else if p = "35" then "Samsung"
  else if p = "86" then "Huawei"
  else if p = "99" then "Xiaomi"
  else "Unknown"

/-- `validateIMEIChecksum` from `src/app.js`: Luhn loop over positions
0..13 (`digit *= 2` at odd `i`, minus 9 when the doubled digit exceeds 9),
then compare `(10 - (sum % 10)) % 10` with the digit at position 14. -/
def validateIMEIChecksum (imei : String) : Bool :=
  let sum := (List.range 14).foldl (fun sum i =>
    let digit := digitAt imei i
    let digit := if i % 2 = 1 then
        (if 2 * digit > 9 then 2 * digit - 9 else 2 * digit)
      else digit
    sum + digit) 0
  ((10 - sum % 10) % 10) == digitAt imei 14

/-- `validateUPCChecksum` from `src/app.js`: positions 0..10 weighted
`digit` at even `i` and `digit * 3` at odd `i`; compare
`(10 - (sum % 10)) % 10` with the digit at position 11. -/
def validateUPCChecksum (upc : String) : Bool :=
  let sum := (List.range 11).foldl (fun sum i =>
    sum + (if i % 2 = 0 then digitAt upc i else digitAt upc i * 3)) 0
  ((10 - sum % 10) % 10) == digitAt upc 11

/-- `validateEAN13Checksum` from `src/app.js`: positions 0..11 weighted
`digit` at even `i` and `digit * 3` at odd `i`; compare
`(10 - (sum % 10)) % 10` with the digit at position 12. -/
def validateEAN13Checksum (ean : String) : Bool :=
  let sum := (List.range 12).foldl (fun sum i =>
    sum + (if i % 2 = 0 then digitAt ean i else digitAt ean i * 3)) 0
  ((10 - sum % 10) % 10) == digitAt ean 12

/-- The record literal returned by `analyzeBarcodeType`. -/
structure ClassificationResult where
  type : String
  isValid : Bool
  vendor : String
  checksum : Bool
deriving Repr, DecidableEq

/-- `analyzeBarcodeType` from `src/app.js`: trim, then try the five shape
rules in source order, returning on the first match. -/
def analyzeBarcodeType (text : String) : ClassificationResult :=
  let cleanText := jsTrim text
  if isDigits 15 cleanText then
    { type := "IMEI", isValid := true, vendor := getIMEIVendor cleanText,
      checksum := validateIMEIChecksum cleanText }
  else if isHex14 cleanText then
    { type := "MEID", isValid := true, vendor := "Unknown", checksum := true }
  else if isDigits 12 cleanText then
    { type := "UPC-A", isValid := true, vendor := "Product",
      checksum := validateUPCChecksum cleanText }
  else if isDigits 8 cleanText then
    { type := "UPC-E", isValid := true, vendor := "Product", checksum := true }
  else if isDigits 13 cleanText then
    { type := "EAN-13", isValid := true, vendor := "Product",
      checksum := validateEAN13Checksum cleanText }
  else
    { type := "Unknown", isValid := false, vendor := "Unknown",
      checksum := false }

/-- A stored scan record: the fields produced by the spread
`{...result, ...barcodeInfo, user, sessionId, id}` in
`processDetectedBarcodes`.  `text` and `format` come from the decoder
result; `type`, `isValid`, `vendor` and `checksum` from the classifier
(which returns no `text` field, so the decoder's raw `text` survives the
spread). -/
structure ScanRecord where
  id : String
  text : String
  type : String
  isValid : Bool
  vendor : String
  checksum : Bool
  user : String
  sessionId : String
  format : String
deriving Repr, DecidableEq

/-- `isDuplicate` from `src/app.js`, with the implicit inputs
`this.settings.duplicateHandling` and `this.scanData` passed explicitly.
The source only reads `scanData` (`Array.prototype.some`), so the embedding
is a pure function returning the decision and no modified log. -/
def isDuplicate (duplicateHandling : String) (scanData : List ScanRecord)
    (text : String) : Bool :=
  if duplicateHandling = "allow" then false
  else scanData.any (fun item => item.text == text)

/-- `addScanResults` from `src/app.js`: push each barcode onto
`this.scanData` in order (the `totalScans` counter, persistence and UI
refresh are outside the core). -/
def addScanResults (scanData : List ScanRecord)
    (barcodes : List ScanRecord) : List ScanRecord :=
  scanData ++ barcodes

/-- `deleteResult` from `src/app.js` (after the user confirms the dialog):
`this.scanData = this.scanData.filter(item => item.id !== id)`. -/
def deleteResult (scanData : List ScanRecord) (id : String) :
    List ScanRecord :=
  scanData.filter (fun item => item.id != id)

/-- A decoder detection result as consumed by `processDetectedBarcodes`:
raw decoded `text` plus the decoder-reported symbology. -/
structure DetectionResult where
  text : String
  format : String
deriving Repr, DecidableEq

/-- The record built by the spread
`{...result, ...barcodeInfo, user, sessionId, id}`: later spreads win, so
`type`/`isValid`/`vendor`/`checksum` come from `barcodeInfo` while `text`
and `format` keep the decoder result's values (`barcodeInfo` carries no
`text`). -/
def mkScanRecord (result : DetectionResult) (info : ClassificationResult)
    (user sessionId id : String) : ScanRecord :=
  { id := id, text := result.text, type := info.type,
    isValid := info.isValid, vendor := info.vendor,
    checksum := info.checksum, user := user, sessionId := sessionId,
    format := result.format }

/-- `processDetectedBarcodes` from `src/app.js`, restricted to its data
flow: for each detection, classify it; keep it when `isValid` holds and it
is not a duplicate of the pre-existing `scanData` (the source checks
against `this.scanData`, which is only extended after the loop); then
append the accepted records via `addScanResults`.  Each detection is paired
with the id `generateId()` produced for it; sounds, overlays and counters
are dropped. -/
def processDetectedBarcodes (duplicateHandling user sessionId : String)
    (scanData : List ScanRecord)
    (results : List (DetectionResult × String)) : List ScanRecord :=
  let validBarcodes :=
    (results.filter (fun rp =>
        (analyzeBarcodeType rp.1.text).isValid &&
        !(isDuplicate duplicateHandling scanData rp.1.text))).map
      (fun rp => mkScanRecord rp.1 (analyzeBarcodeType rp.1.text)
        user sessionId rp.2)
  addScanResults scanData validBarcodes

/-- A persisted record as it comes back from `JSON.parse`: every field may
be absent, since `loadScanData` performs no per-record validation. Only the
fields needed to exhibit a missing required field are modelled. -/
structure RawRecord where
  id : Option String
  text : Option String
  type : Option String
deriving Repr, DecidableEq

/-- `loadScanData` from `src/app.js`:
`this.scanData = saved ? JSON.parse(saved) : []`, with the `try`/`catch`
(absent key or parse failure) modelled as `none`.  The parsed array is
assigned wholesale: no record is inspected, rejected or skipped. -/
def loadScanData (saved : Option (List RawRecord)) : List RawRecord :=
  saved.getD []

/-! ### Spec-side definitions (from the specification's wording) -/

/-- The specification's vendor map on the two-digit prefix:
`{"01":"Apple","35":"Samsung","86":"Huawei","99":"Xiaomi"}`, default
`"Unknown"`. -/
def imeiVendorMap (p : String) : String :=
  if p = "01" then "Apple"
  else if p = "35" then "Samsung"
  else if p = "86" then "Huawei"
  else if p = "99" then "Xiaomi"
  else "Unknown"

/-- The classifier as the specification words it: trim, then test the
trimmed value against the shape rules in the stated priority order,
returning on first match, with the stated type, validity, vendor and
checksum for each shape. -/
def classifySpec (rawText : String) : ClassificationResult :=
  let t := jsTrim rawText
  if isDigits 15 t then
    { type := "IMEI", isValid := true, vendor := imeiVendorMap (substr t 0 2),
      checksum := validateIMEIChecksum t }
  else if isHex14 t then
    { type := "MEID", isValid := true, vendor := "Unknown", checksum := true }
  else if isDigits 12 t then
    { type := "UPC-A", isValid := true, vendor := "Product",
      checksum := validateUPCChecksum t }
  else if isDigits 8 t then
    { type := "UPC-E", isValid := true, vendor := "Product", checksum := true }
  else if isDigits 13 t then
    { type := "EAN-13", isValid := true, vendor := "Product",
      checksum := validateEAN13Checksum t }
  else
    { type := "Unknown", isValid := false, vendor := "Unknown",
      checksum := false }

/-- The specification's doubling rule: the digit at every odd position is
doubled, and 9 is subtracted from any doubled value exceeding 9. -/
def luhnAdjusted (i d : Nat) : Nat :=
  if i % 2 = 1 then (if 2 * d > 9 then 2 * d - 9 else 2 * d) else d

/-- The specification's IMEI sum: the adjusted digits at positions 0..13. -/
def imeiSpecSum (s : String) : Nat :=
  ∑ i in Finset.range 14, luhnAdjusted i (digitAt s i)

/-- The specification's IMEI validity condition:
`(10 − (sum mod 10)) mod 10` equals the digit at position 14. -/
def imeiSpecValid (s : String) : Prop :=
  (10 - imeiSpecSum s % 10) % 10 = digitAt s 14

/-- The specification's UPC-A sum: digits at positions 0..10, weighted ×1
at even 0-indexed positions and ×3 at odd positions. -/
def upcSpecSum (s : String) : Nat :=
  ∑ i in Finset.range 11, (if i % 2 = 0 then digitAt s i else 3 * digitAt s i)

/-- The specification's UPC-A validity condition: check digit against
position 11. -/
def upcSpecValid (s : String) : Prop :=
  (10 - upcSpecSum s % 10) % 10 = digitAt s 11

/-- The specification's EAN-13 sum: the identical weighting scheme over
positions 0..11. -/
def eanSpecSum (s : String) : Nat :=
  ∑ i in Finset.range 12, (if i % 2 = 0 then digitAt s i else 3 * digitAt s i)

/-- The specification's EAN-13 validity condition: check digit against
position 12. -/
def eanSpecValid (s : String) : Prop :=
  (10 - eanSpecSum s % 10) % 10 = digitAt s 12

/-- A concrete stored record used to instantiate universally quantified
theorems. -/
def sampleRecord : ScanRecord :=
  { id := "id-1", text := "036000291452", type := "UPC-A", isValid := true,
    vendor := "Product", checksum := false, user := "user1",
    sessionId := "sess1", format := "upc_a" }

/-- A second concrete record, with a distinct id. -/
def sampleRecord2 : ScanRecord :=
  { id := "id-2", text := "490154203237518", type := "IMEI", isValid := true,
    vendor := "Unknown", checksum := true, user := "user1",
    sessionId := "sess1", format := "code_128" }

/-! ### Helper lemmas -/

lemma getIMEIVendor_eq_map (s : String) :
    getIMEIVendor s = imeiVendorMap (substr s 0 2) := by
  have h : substr (substr s 0 8) 0 2 = substr s 0 2 := by
    simp [substr, List.take_take]
  simp only [getIMEIVendor, imeiVendorMap, h]

/-! ### Claim theorems -/

/-- Claim C1: for every input string, `analyzeBarcodeType` first trims the
input and then tests the trimmed value against the shape rules in the
stated priority order (15 decimal digits → IMEI with vendor from the
two-digit-prefix map and the IMEI checksum; 14 case-insensitive hex
characters → MEID, vendor `"Unknown"`, checksum `true`; 12 decimal digits
→ UPC-A, vendor `"Product"`, UPC-A checksum; 8 decimal digits → UPC-E,
vendor `"Product"`, checksum `true`; 13 decimal digits → EAN-13, vendor
`"Product"`, EAN-13 checksum; anything else → `Unknown` and invalid),
with `isValid = true` unconditionally for the five matched shapes:
`analyzeBarcodeType` coincides with the spec-side classifier
`classifySpec` on every input. -/
theorem analyzeBarcodeType_eq_classifySpec (rawText : String) :
    analyzeBarcodeType rawText = classifySpec rawText := by
  simp only [analyzeBarcodeType, classifySpec, getIMEIVendor_eq_map]

/-- Claim C2: for every string of exactly 15 decimal digits, the IMEI
checksum computed by the code is `true` exactly when the specification
condition holds: summing positions 0..13 with every odd-position digit
doubled (minus 9 when the doubled value exceeds 9), the value
`(10 − (sum mod 10)) mod 10` equals the digit at position 14. -/
theorem validateIMEIChecksum_iff_spec (s : String)
    (h : isDigits 15 s = true) :
    validateIMEIChecksum s = true ↔ imeiSpecValid s := by
  clear h
  simp [validateIMEIChecksum, imeiSpecValid, imeiSpecSum, luhnAdjusted,
    Finset.sum_range_succ, List.range_succ, beq_iff_eq]

/-- Witness for C2 at the 15-digit string `"490154203237518"`. -/
theorem validateIMEIChecksum_iff_spec_witness :
    isDigits 15 "490154203237518" = true ∧
    (validateIMEIChecksum "490154203237518" = true ↔
      imeiSpecValid "490154203237518") :=
  ⟨by decide, validateIMEIChecksum_iff_spec "490154203237518" (by decide)⟩

/-- Claim C3: for every string of exactly 12 decimal digits the UPC-A
checksum is reported valid exactly when `(10 − (S mod 10)) mod 10` equals
the digit at position 11, where `S` weights positions 0..10 by ×1 at even
0-indexed positions and ×3 at odd positions; and for every string of
exactly 13 decimal digits the EAN-13 checksum applies the identical
weighting over positions 0..11 against the digit at position 12. -/
theorem upc_ean_checksum_iff_spec (s12 s13 : String)
    (h12 : isDigits 12 s12 = true) (h13 : isDigits 13 s13 = true) :
    (validateUPCChecksum s12 = true ↔ upcSpecValid s12) ∧
    (validateEAN13Checksum s13 = true ↔ eanSpecValid s13) := by
  clear h12 h13
  constructor
  · simp [validateUPCChecksum, upcSpecValid, upcSpecSum,
      Finset.sum_range_succ, List.range_succ, beq_iff_eq, Nat.mul_comm]
  · simp [validateEAN13Checksum, eanSpecValid, eanSpecSum,
      Finset.sum_range_succ, List.range_succ, beq_iff_eq, Nat.mul_comm]

/-- Witness for C3 at `"036000291452"` (12 digits) and `"4006381333931"`
(13 digits). -/
theorem upc_ean_checksum_iff_spec_witness :
    isDigits 12 "036000291452" = true ∧
    isDigits 13 "4006381333931" = true ∧
    ((validateUPCChecksum "036000291452" = true ↔
        upcSpecValid "036000291452") ∧
      (validateEAN13Checksum "4006381333931" = true ↔
        eanSpecValid "4006381333931")) :=
  ⟨by decide, by decide,
    upc_ean_checksum_iff_spec "036000291452" "4006381333931"
      (by decide) (by decide)⟩

/-- Claim C4: for every candidate text and log contents, `isDuplicate`
under policy `"allow"` returns `false`, and under policy `"block"` it
returns `true` exactly when some existing record's `text` equals the
candidate text (case-sensitive, no further trimming).  The source only
reads the log (`Array.prototype.some`), so the embedding is a pure
function: the log is not mutated by construction. -/
theorem isDuplicate_policy_spec (scanData : List ScanRecord)
    (text : String) :
    isDuplicate "allow" scanData text = false ∧
    (isDuplicate "block" scanData text = true ↔
      ∃ r ∈ scanData, r.text = text) := by
  constructor
  · simp [isDuplicate]
  · simp [isDuplicate, List.any_eq_true]

/-- Claim C5 (evaluation at the failing input): the code classifies the
classic UPC-A test vector `"036000291452"` as UPC-A but reports its
checksum as `false` — `validateUPCChecksum` weights odd 0-indexed
positions ×3, the transpose of the UPC-A standard, so the claimed
`checksum valid = true` fails on the code. -/
theorem classify_upca_test_vector_checksum_false :
    analyzeBarcodeType "036000291452" =
      { type := "UPC-A", isValid := true, vendor := "Product",
        checksum := false } := by
  decide

/-- Counterexample to claim C6 as stated: on `"490154203237518"` the code
reports the IMEI checksum `true`, not `false`. -/
theorem classify_imei_test_vector_checksum_not_false :
    (analyzeBarcodeType "490154203237518").type = "IMEI" ∧
    (analyzeBarcodeType "490154203237518").checksum = true := by
  decide

/-- Claim C6 as amended: `classify("490154203237518")` returns type IMEI
with checksum reported `true` — the doubling-rule sum over positions 0..13
is 52, giving check digit `(10 − 52 mod 10) mod 10 = 8`, which equals the
final digit 8. -/
theorem classify_imei_test_vector_result :
    analyzeBarcodeType "490154203237518" =
      { type := "IMEI", isValid := true, vendor := "Unknown",
        checksum := true } ∧
    imeiSpecSum "490154203237518" = 52 := by
  decide

/-- Claim C7: appending a record whose id is not present in the log and
then deleting by that id leaves the log equal, record for record, to its
prior state (order included). -/
theorem append_then_deleteById_restores (scanData : List ScanRecord)
    (r : ScanRecord) (h : ∀ x ∈ scanData, x.id ≠ r.id) :
    deleteResult (addScanResults scanData [r]) r.id = scanData := by
  simp only [addScanResults, deleteResult, List.filter_append]
  have h1 : scanData.filter (fun item => item.id != r.id) = scanData :=
    List.filter_eq_self.mpr (fun x hx => by simpa using h x hx)
  have h2 : [r].filter (fun item => item.id != r.id) = [] := by simp
  rw [h1, h2, List.append_nil]

/-- Witness for C7 on a one-record log and a fresh record. -/
theorem append_then_deleteById_restores_witness :
    (∀ x ∈ [sampleRecord], x.id ≠ sampleRecord2.id) ∧
    deleteResult (addScanResults [sampleRecord] [sampleRecord2])
      sampleRecord2.id = [sampleRecord] :=
  ⟨by decide,
    append_then_deleteById_restores [sampleRecord] sampleRecord2
      (by decide)⟩

/-- Claim C8 (evaluation at the failing input): a detection whose raw
decoder text `" 036000291452 "` carries surrounding whitespace is accepted
(it classifies as valid UPC-A after trimming), yet the record appended to
the log stores the raw, untrimmed text — `analyzeBarcodeType` trims only
internally and returns no `text` field, so the spread keeps the decoder's
raw value, contradicting the claimed invariant that stored `text` is the
trimmed decoded value. -/
theorem processDetectedBarcodes_stores_untrimmed_text :
    (processDetectedBarcodes "block" "user1" "sess1" []
        [({ text := " 036000291452 ", format := "upc_a" }, "id1")]).map
      ScanRecord.text = [" 036000291452 "] ∧
    jsTrim " 036000291452 " = "036000291452" := by
  decide

/-- Claim C9 (evaluation at the failing input): `loadScanData` assigns the
parsed array wholesale, so a persisted record missing the required `id`
field is loaded as-is rather than being rejected with a
`MalformedRecordError` and skipped — no such validation (or error class)
exists anywhere in the code. -/
theorem loadScanData_keeps_malformed_record :
    loadScanData
        (some [{ id := none, text := some "036000291452", type := none }]) =
      [{ id := none, text := some "036000291452", type := none }] ∧
    (({ id := none, text := some "036000291452", type := none } :
      RawRecord)).id = none := by
  decide

/-- Claim C10: for every value of `duplicateHandling` other than the exact
string `"allow"`, `isDuplicate` behaves as blocking: it returns `true`
exactly when some record in the current scan data has `text` strictly
equal to the candidate text. -/
theorem isDuplicate_nonallow_blocks (policy : String)
    (h : policy ≠ "allow") (scanData : List ScanRecord) (text : String) :
    isDuplicate policy scanData text = true ↔
      ∃ r ∈ scanData, r.text = text := by
  simp [isDuplicate, h, List.any_eq_true]

/-- Witness for C10 with the out-of-enumeration policy value `"Block"`. -/
theorem isDuplicate_nonallow_blocks_witness :
    (("Block" : String) ≠ "allow") ∧
    isDuplicate "Block" [sampleRecord] "036000291452" = true :=
  ⟨by decide,
    (isDuplicate_nonallow_blocks "Block" (by decide) [sampleRecord]
      "036000291452").mpr ⟨sampleRecord, by decide, by decide⟩⟩

end IMEIScanner
